import Mathlib

/-!
Verification of the GeoApp equipment-report backend.

The definitions below are a shallow embedding of `src/backend/server.js`
together with the mongoose schema `equipmentSchema` (the Equipment model).
The persistent store is modelled as a list of documents plus a monotone
counter that plays the role of both the assigned document id and the
insertion timestamp `createdAt` (MongoDB assigns `createdAt` at insertion;
successive insertions get strictly larger values, modelled by the counter).
HTTP responses are modelled by their status code and the record they echo.
-/

/-- One stored equipment report, mirroring the fields of `equipmentSchema`.
`datetime` is `none` when the server supplied the default current date
(`datetime || new Date()` in the handler / `default: Date.now` in the
schema) and `some s` when the client-supplied string `s` was stored. -/
structure Equipment where
  id : Nat
  title : String
  description : String
  location : String
  laboratory : String
  photo : Option String
  datetime : Option String
  status : String
  createdAt : Nat
deriving DecidableEq, Repr

/-- The persistent collection of reports: documents in insertion order and
the counter used for fresh ids / insertion timestamps. -/
structure Store where
  docs : List Equipment
  nextId : Nat
deriving DecidableEq, Repr

def emptyStore : Store := ⟨[], 0⟩

/-- The uploaded photo part of a multipart request, as multer sees it. -/
structure FilePart where
  originalname : String
  mimetype : String
  size : Nat
deriving DecidableEq, Repr

/-- A create request: the text fields of `req.body` (absent fields are
`none`) and the optional `photo` file part. `status` is a status value the
client may try to smuggle into the body; the handler's destructuring at
server.js:71 never reads it. -/
structure CreateRequest where
  title : Option String
  description : Option String
  location : Option String
  laboratory : Option String
  datetime : Option String
  status : Option String
  file : Option FilePart
deriving DecidableEq, Repr

/-- An HTTP response: status code, plus the equipment record echoed in the
body on success (`none` for error bodies). -/
structure HttpResult where
  code : Nat
  body : Option Equipment
deriving DecidableEq, Repr

/-- JavaScript truthiness of an optional body string: `undefined` and the
empty string are falsy (`!title` at server.js:73). -/
def present : Option String → Bool
  | none => false
  | some s => s != ""

/-- Leading/trailing-whitespace removal of `String.prototype.trim`
(used at server.js:80-83 and by the schema's trim setters), written
structurally over the character list so it evaluates by kernel
reduction. -/
def trimChars (l : List Char) : List Char :=
  ((l.dropWhile Char.isWhitespace).reverse.dropWhile Char.isWhitespace).reverse

def jsTrim (s : String) : String :=
  ⟨trimChars s.data⟩

/-- `file.mimetype.startsWith('image/')`, transcribed structurally. -/
def mimeIsImage (m : String) : Bool :=
  match m.toList with
  | 'i' :: 'm' :: 'a' :: 'g' :: 'e' :: '/' :: _ => true
  | _ => false

/-- The multer `fileFilter` (server.js:26-32): accept exactly the mime
types starting with "image/". -/
def fileFilterAccepts (f : FilePart) : Bool :=
  mimeIsImage f.mimetype

/-- `limits.fileSize` of the multer configuration (server.js:33-35). -/
def fileSizeLimit : Nat := 5 * 1024 * 1024

/-- Errors the upload middleware can raise: the `fileFilter` error (a plain
`Error`) and the `MulterError` with code LIMIT_FILE_SIZE. -/
inductive UploadError where
  | invalidFileType
  | limitFileSize
deriving DecidableEq, Repr

/-- The error-handling middleware (server.js:159-170): only a
`MulterError` with code LIMIT_FILE_SIZE is mapped to 400; every other
error — including the plain `Error` thrown by the fileFilter for
non-image mime types — falls through to the generic 500 response. -/
def errorMiddleware : UploadError → Nat
  | .limitFileSize => 400
  | .invalidFileType => 500

/-- Stored filename of an accepted upload: `Date.now() + '-' +
file.originalname` (server.js:19-21), with the logical timestamp `ts`. -/
def storedFilename (ts : Nat) (fp : FilePart) : String :=
  toString ts ++ "-" ++ fp.originalname

inductive UploadOutcome where
  | ok (photo : Option String)
  | err (e : UploadError)
deriving DecidableEq, Repr

/-- `upload.single('photo')`: no file part is fine (photo stays null);
a file part is first screened by the fileFilter, then by the size limit
(the filter rejects before any bytes are written). -/
def uploadSingle (ts : Nat) : Option FilePart → UploadOutcome
  | none => .ok none
  | some fp =>
    if fileFilterAccepts fp then
      if fp.size ≤ fileSizeLimit then .ok (some (storedFilename ts fp))
      else .err .limitFileSize
    else .err .invalidFileType

/-- Boolean shortcut telling whether the upload stage lets a request
through to the route handler. -/
def uploadAccepts : Option FilePart → Bool
  | none => true
  | some fp => fileFilterAccepts fp && decide (fp.size ≤ fileSizeLimit)

/-- The boundary presence check at server.js:73:
`if (!title || !description || !location || !laboratory)`. -/
def requiredPresent (req : CreateRequest) : Bool :=
  present req.title && present req.description &&
  present req.location && present req.laboratory

/-- `['pendente', 'em_manutencao', 'concluido'].includes(status)`
(server.js:115), also the enum of `equipmentSchema.status`. -/
def validStatus (s : String) : Bool :=
  s == "pendente" || s == "em_manutencao" || s == "concluido"

/-- Digit test used by the date-cast model. -/
def isDigitChar (c : Char) : Bool :=
  decide ('0' ≤ c) && decide (c ≤ '9')

/-- Modelled from library behaviour: the mongoose cast for
`datetime: { type: Date }` (equipmentSchema, src/unnamed/part_001:48-51).
The cast runs `new Date(string)`; restricted here to the ISO-8601 shapes
the repository's own client produces (`Date.prototype.toISOString`, e.g.
"2024-05-01T10:00:00.000Z") and plain "YYYY-MM-DD" dates. Strings not of
a date shape (e.g. "garbage") yield an Invalid Date and the cast fails,
turning the save into a ValidationError. -/
def castsToDate (s : String) : Bool :=
  match s.toList with
  | [y1, y2, y3, y4, '-', m1, m2, '-', d1, d2] =>
      [y1, y2, y3, y4, m1, m2, d1, d2].all isDigitChar
  | [y1, y2, y3, y4, '-', m1, m2, '-', d1, d2, 'T',
     h1, h2, ':', n1, n2, ':', s1, s2, '.', f1, f2, f3, 'Z'] =>
      [y1, y2, y3, y4, m1, m2, d1, d2, h1, h2, n1, n2, s1, s2, f1, f2, f3].all isDigitChar
  | _ => false

/-- One required text field of the schema: `required` (non-empty after the
trim setter; the handler already trimmed at server.js:80-83) and
`maxlength`. -/
def textFieldOk (maxlen : Nat) (v : String) : Bool :=
  v != "" && decide (v.length ≤ maxlen)

/-- Whether a stored `datetime` value passes the schema's Date cast
(`none` is the server-assigned current date, always fine). -/
def storedDatetimeOk : Option String → Bool
  | none => true
  | some d => castsToDate d

/-- Validation `equipmentSchema` runs at `save()`
(src/unnamed/part_001:19-62): required + maxlength on the four text
fields, the Date cast on `datetime`, and the status enum. -/
def schemaValidates (e : Equipment) : Bool :=
  textFieldOk 100 e.title && textFieldOk 500 e.description &&
  textFieldOk 100 e.location && textFieldOk 100 e.laboratory &&
  storedDatetimeOk e.datetime && validStatus e.status

/-- The document the handler constructs at server.js:79-87: the four text
fields trimmed, `datetime: datetime || new Date()` (absent or empty
string falls back to the server date, modelled as `none`), the stored
photo filename or null, and status hard-coded to 'pendente'. -/
def buildEquipment (st : Store) (req : CreateRequest) (photo : Option String) : Equipment :=
  { id := st.nextId
    title := jsTrim (req.title.getD "")
    description := jsTrim (req.description.getD "")
    location := jsTrim (req.location.getD "")
    laboratory := jsTrim (req.laboratory.getD "")
    photo := photo
    datetime := match req.datetime with
      | some d => if d == "" then none else some d
      | none => none
    status := "pendente"
    createdAt := st.nextId }

/-- `equipment.save()` (server.js:89): schema validation, then append; a
ValidationError is caught and mapped to 400 (server.js:98-103). -/
def saveEquipment (st : Store) (e : Equipment) : Store × HttpResult :=
  if schemaValidates e then
    ({ docs := st.docs ++ [e], nextId := st.nextId + 1 }, ⟨201, some e⟩)
  else (st, ⟨400, none⟩)

/-- The route handler body of POST /api/equipments after the upload stage
has produced its outcome. -/
def postAfterUpload (st : Store) (req : CreateRequest) : UploadOutcome → Store × HttpResult
  | .err ue => (st, ⟨errorMiddleware ue, none⟩)
  | .ok photo =>
    if requiredPresent req then saveEquipment st (buildEquipment st req photo)
    else (st, ⟨400, none⟩)

/-- POST /api/equipments (server.js:69-109): multer first, then the
presence check, then construction and save. -/
def postEquipment (st : Store) (req : CreateRequest) : Store × HttpResult :=
  postAfterUpload st req (uploadSingle st.nextId req.file)

/-- `Equipment.findById`-style lookup used by update and delete. -/
def findById (st : Store) (i : Nat) : Option Equipment :=
  st.docs.find? (fun e => e.id == i)

/-- PUT /api/equipments/:id (server.js:111-139): status validated first
(`!status || !enum.includes(status)` → 400), then
`findByIdAndUpdate(id, { status }, { new: true })`: absent id → 404,
otherwise the stored document's status is replaced and the updated record
is returned. -/
def putEquipment (st : Store) (i : Nat) (body : Option String) : Store × HttpResult :=
  let s := body.getD ""
  if present body && validStatus s then
    match findById st i with
    | none => (st, ⟨404, none⟩)
    | some e =>
      let e2 := { e with status := s }
      ({ st with docs := st.docs.map (fun x => if x.id == i then e2 else x) },
       ⟨200, some e2⟩)
  else (st, ⟨400, none⟩)

/-- DELETE /api/equipments/:id (server.js:141-157):
`findByIdAndDelete`: absent id → 404, otherwise the document is removed
and echoed back. -/
def deleteEquipment (st : Store) (i : Nat) : Store × HttpResult :=
  match findById st i with
  | none => (st, ⟨404, none⟩)
  | some e =>
    ({ st with docs := st.docs.filter (fun x => !(x.id == i)) }, ⟨200, some e⟩)

/-- The sort order of `Equipment.find().sort({ createdAt: -1 })`
(server.js:61): newest (largest `createdAt`) first. -/
def newerFirst (a b : Equipment) : Prop :=
  b.createdAt ≤ a.createdAt

instance : DecidableRel newerFirst :=
  fun a b => Nat.decLe b.createdAt a.createdAt

instance : IsTotal Equipment newerFirst :=
  ⟨fun a b => Nat.le_total b.createdAt a.createdAt⟩

instance : IsTrans Equipment newerFirst :=
  ⟨fun _ _ _ hab hbc => Nat.le_trans hbc hab⟩

/-- GET /api/equipments (server.js:59-67): every stored report, sorted by
`createdAt` descending. -/
def listAll (st : Store) : List Equipment :=
  st.docs.insertionSort newerFirst

/-- The schema checks on the four text fields as a function of the raw
request: exactly the text-field part of `schemaValidates` applied to the
values the handler would store. -/
def fieldsOk (req : CreateRequest) : Bool :=
  textFieldOk 100 (jsTrim (req.title.getD "")) &&
  textFieldOk 500 (jsTrim (req.description.getD "")) &&
  textFieldOk 100 (jsTrim (req.location.getD "")) &&
  textFieldOk 100 (jsTrim (req.laboratory.getD ""))

/-- Whether the request's `datetime` part survives creation: absent or
empty falls back to the server date; anything else must pass the schema's
Date cast. -/
def datetimeOk : Option String → Bool
  | none => true
  | some d => d == "" || castsToDate d

/-! Concrete inputs used by witnesses and counterexamples. -/

/-- A fully valid create request (spec scenario 1) that also tries to
smuggle a status value in the body. -/
def req1 : CreateRequest :=
  { title := some "Projetor sem ligar", description := some "nao liga",
    location := some "Mesa 5", laboratory := some "Lab 1",
    datetime := none, status := some "concluido", file := none }

/-- The record `req1` creates in the empty store. -/
def eq1 : Equipment :=
  { id := 0, title := "Projetor sem ligar", description := "nao liga",
    location := "Mesa 5", laboratory := "Lab 1", photo := none,
    datetime := none, status := "pendente", createdAt := 0 }

def noTitleReq : CreateRequest :=
  { title := none, description := some "nao liga", location := some "Mesa 5",
    laboratory := some "Lab 1", datetime := none, status := none, file := none }

def pdfFile : FilePart :=
  { originalname := "laudo.pdf", mimetype := "application/pdf", size := 10 }

def badFileReq : CreateRequest := { noTitleReq with file := some pdfFile }

def pdfReq : CreateRequest := { req1 with status := none, file := some pdfFile }

def bigFile : FilePart :=
  { originalname := "foto.png", mimetype := "image/png", size := 6 * 1024 * 1024 }

def bigFileReq : CreateRequest := { req1 with status := none, file := some bigFile }

def isoReq : CreateRequest :=
  { req1 with status := none, datetime := some "2024-05-01T10:00:00.000Z" }

def garbageReq : CreateRequest :=
  { req1 with status := none, datetime := some "garbage" }

/-- Whitespace-only title: passes the boundary presence check, fails the
schema's required check after trimming. -/
def wsReq : CreateRequest := { req1 with title := some "   " }

/-- Padded title, to exercise trimming. -/
def padReq : CreateRequest := { req1 with title := some "  Projetor  " }

/-- The record `padReq` creates in the empty store. -/
def eqPad : Equipment := { eq1 with title := "Projetor" }

def eqA : Equipment :=
  { id := 0, title := "t", description := "d", location := "l",
    laboratory := "lab", photo := none, datetime := none,
    status := "pendente", createdAt := 0 }

def stA : Store := ⟨[eqA], 1⟩

/-! Helper lemmas about the embedded operations. -/

theorem uploadSingle_ok (ts : Nat) (f : Option FilePart)
    (h : uploadAccepts f = true) :
    ∃ p, uploadSingle ts f = UploadOutcome.ok p := by
  cases f with
  | none => exact ⟨none, rfl⟩
  | some fp =>
    unfold uploadAccepts at h
    rw [Bool.and_eq_true, decide_eq_true_iff] at h
    refine ⟨some (storedFilename ts fp), ?_⟩
    simp only [uploadSingle]
    rw [if_pos h.1, if_pos h.2]

theorem postEquipment_err_eq (st : Store) (req : CreateRequest) (ue : UploadError)
    (hup : uploadSingle st.nextId req.file = UploadOutcome.err ue) :
    postEquipment st req = (st, ⟨errorMiddleware ue, none⟩) := by
  unfold postEquipment
  rw [hup]
  rfl

theorem postEquipment_ok_eq (st : Store) (req : CreateRequest) (p : Option String)
    (hup : uploadSingle st.nextId req.file = UploadOutcome.ok p) :
    postEquipment st req =
      (if requiredPresent req then saveEquipment st (buildEquipment st req p)
       else (st, ⟨400, none⟩)) := by
  unfold postEquipment
  rw [hup]
  rfl

theorem schemaValidates_build (st : Store) (req : CreateRequest) (p : Option String) :
    schemaValidates (buildEquipment st req p) =
      (fieldsOk req && datetimeOk req.datetime) := by
  cases hd : req.datetime with
  | none =>
    simp [schemaValidates, buildEquipment, fieldsOk, storedDatetimeOk,
      datetimeOk, validStatus, hd]
  | some d =>
    by_cases he : d == ""
    · simp [schemaValidates, buildEquipment, fieldsOk, storedDatetimeOk,
        datetimeOk, validStatus, hd, he]
    · simp only [Bool.not_eq_true] at he
      simp [schemaValidates, buildEquipment, fieldsOk, storedDatetimeOk,
        datetimeOk, validStatus, hd, he]

theorem validStatus_ne_empty (s : String) (h : validStatus s = true) :
    (s != "") = true := by
  unfold validStatus at h
  simp only [Bool.or_eq_true, beq_iff_eq] at h
  rcases h with (h | h) | h <;> subst h <;> decide

theorem find?_filter_ne (l : List Equipment) (i : Nat) :
    (l.filter (fun x => !(x.id == i))).find? (fun x => x.id == i) = none := by
  induction l with
  | nil => rfl
  | cons a l ih =>
    by_cases h : (a.id == i) = true
    · simp [List.filter_cons, h, ih]
    · simp [List.filter_cons, h, List.find?, ih]

theorem find?_map_update (l : List Equipment) (i : Nat) (e2 : Equipment)
    (h2 : (e2.id == i) = true) (e : Equipment)
    (h : l.find? (fun x => x.id == i) = some e) :
    (l.map (fun x => if x.id == i then e2 else x)).find?
      (fun x => x.id == i) = some e2 := by
  induction l with
  | nil => simp at h
  | cons a l ih =>
    by_cases ha : (a.id == i) = true
    · simp only [List.map_cons, if_pos ha]
      exact List.find?_cons_of_pos _ h2
    · rw [@List.find?_cons_of_neg Equipment (fun x => x.id == i) a l ha] at h
      simp only [List.map_cons, if_neg ha]
      rw [@List.find?_cons_of_neg Equipment (fun x => x.id == i) a
        (l.map (fun x => if x.id == i then e2 else x)) ha]
      exact ih h

/-- Any record returned in a create response body is the document the
handler built, and the resulting store is the old one with exactly that
document appended. -/
theorem postEquipment_body_eq (st : Store) (req : CreateRequest) (e : Equipment)
    (hb : (postEquipment st req).2.body = some e) :
    ∃ p, e = buildEquipment st req p ∧
      (postEquipment st req).1.docs = st.docs ++ [e] := by
  cases hup : uploadSingle st.nextId req.file with
  | err ue =>
    rw [postEquipment_err_eq st req ue hup] at hb
    exact absurd hb (by simp)
  | ok p =>
    rw [postEquipment_ok_eq st req p hup] at hb ⊢
    by_cases hr : requiredPresent req = true
    · rw [if_pos hr] at hb ⊢
      unfold saveEquipment at hb ⊢
      by_cases hv : schemaValidates (buildEquipment st req p) = true
      · rw [if_pos hv] at hb ⊢
        simp only [Option.some.injEq] at hb
        exact ⟨p, hb.symm, by rw [hb]⟩
      · rw [if_neg hv] at hb
        exact absurd hb (by simp)
    · rw [if_neg hr] at hb
      exact absurd hb (by simp)

/-! The claims. -/

/-- C1: for every create request, the status value the client supplies in
the body has no effect on the outcome of creation, and any record echoed
back by a creation has status "pendente" and is the record persisted in
the resulting store. -/
theorem create_status_always_pending (st : Store) (req : CreateRequest) :
    (∀ s, postEquipment st { req with status := s } = postEquipment st req) ∧
    (∀ e, (postEquipment st req).2.body = some e →
      e.status = "pendente" ∧ e ∈ (postEquipment st req).1.docs) := by
  refine ⟨fun s => by cases req; rfl, fun e hb => ?_⟩
  obtain ⟨p, hpe, hdocs⟩ := postEquipment_body_eq st req e hb
  subst hpe
  refine ⟨rfl, ?_⟩
  rw [hdocs]
  simp

/-- C1 witness: creating with valid fields and a smuggled status
"concluido" yields a persisted record with status "pendente". -/
theorem create_status_always_pending_witness :
    eq1.status = "pendente" ∧ eq1 ∈ (postEquipment emptyStore req1).1.docs :=
  (create_status_always_pending emptyStore req1).2 eq1 (by decide)

/-- C2: the list operation returns a permutation of the whole store (every
report, nothing else), sorted by `createdAt` descending (newest first),
and on the empty store it returns the empty list rather than an error. -/
theorem listAll_sorted_desc (st : Store) :
    (listAll st).Perm st.docs ∧ (listAll st).Sorted newerFirst ∧
      listAll emptyStore = [] :=
  ⟨List.perm_insertionSort newerFirst st.docs,
   List.sorted_insertionSort newerFirst st.docs, rfl⟩

/-- C3 counterexample: id 0 is not present in the empty store, yet the
update operation with an out-of-enum status value answers 400, not the
404 the claim promises for every absent id. -/
theorem update_absent_id_invalid_status_400 :
    findById emptyStore 0 = none ∧
    (putEquipment emptyStore 0 (some "quebrado")).2.code = 400 ∧
    (putEquipment emptyStore 0 (some "quebrado")).2.code ≠ 404 := by
  decide

/-- C3 amended: for every absent id, an update carrying an in-enum status
value fails with 404 and a delete fails with 404; deleting an existing id
twice yields 200 on the first call and 404 on the second. -/
theorem update_delete_notfound_amended (st : Store) (i : Nat) (s : String)
    (habs : findById st i = none) (hs : validStatus s = true) :
    (putEquipment st i (some s)).2.code = 404 ∧
    (deleteEquipment st i).2.code = 404 ∧
    (∀ st2 j e, findById st2 j = some e →
      (deleteEquipment st2 j).2.code = 200 ∧
      (deleteEquipment (deleteEquipment st2 j).1 j).2.code = 404) := by
  have hp : (s != "") = true := validStatus_ne_empty s hs
  refine ⟨?_, ?_, ?_⟩
  · simp [putEquipment, present, hp, hs, habs]
  · simp [deleteEquipment, habs]
  · intro st2 j e hf
    constructor
    · simp [deleteEquipment, hf]
    · have h1 : (deleteEquipment st2 j).1 =
          { st2 with docs := st2.docs.filter (fun x => !(x.id == j)) } := by
        simp [deleteEquipment, hf]
      rw [h1]
      have h2 : findById { st2 with
          docs := st2.docs.filter (fun x => !(x.id == j)) } j = none := by
        simp only [findById]
        exact find?_filter_ne st2.docs j
      simp [deleteEquipment, h2]

/-- C3 witness: updating (with a valid status) and deleting id 3 in the
empty store both answer 404. -/
theorem update_delete_notfound_amended_witness :
    (putEquipment emptyStore 3 (some "pendente")).2.code = 404 ∧
    (deleteEquipment emptyStore 3).2.code = 404 :=
  ⟨(update_delete_notfound_amended emptyStore 3 "pendente" (by decide) (by decide)).1,
   (update_delete_notfound_amended emptyStore 3 "pendente" (by decide) (by decide)).2.1⟩

/-- C4: an update carrying a status outside the enum is rejected with 400
and leaves the store untouched; with an in-enum status and an existing id
it replaces the status, answers 200 with the full updated record, and the
store now holds that record under the same id. -/
theorem update_status_enum_validation (st : Store) (i : Nat) (s : String) :
    (validStatus s = false →
      (putEquipment st i (some s)).2.code = 400 ∧
      (putEquipment st i (some s)).1 = st) ∧
    (∀ e, validStatus s = true → findById st i = some e →
      (putEquipment st i (some s)).2 = ⟨200, some { e with status := s }⟩ ∧
      findById (putEquipment st i (some s)).1 i = some { e with status := s }) := by
  constructor
  · intro hv
    constructor <;> simp [putEquipment, hv]
  · intro e hv hf
    have hp : (s != "") = true := validStatus_ne_empty s hv
    have hid : (e.id == i) = true := by
      unfold findById at hf
      have h3 := List.find?_some hf
      simpa using h3
    constructor
    · simp [putEquipment, present, hp, hv, hf]
    · have hst : (putEquipment st i (some s)).1 =
          { st with docs := (st.docs.map
            (fun x => if x.id == i then { e with status := s } else x)) } := by
        simp [putEquipment, present, hp, hv, hf]
      rw [hst]
      simp only [findById]
      exact find?_map_update st.docs i { e with status := s } hid e hf

/-- C4 witness: updating the stored report with "concluido" answers 200
with the full updated record. -/
theorem update_status_enum_validation_witness :
    (putEquipment stA 0 (some "concluido")).2 =
      ⟨200, some { eqA with status := "concluido" }⟩ :=
  ((update_status_enum_validation stA 0 "concluido").2 eqA
    (by decide) (by decide)).1

/-- C5 counterexample: a request with the title absent but whose photo
part has mime type "application/pdf" is rejected by the upload stage with
500, not the 400 the claim promises for every missing-field request. -/
theorem missing_field_bad_file_500 :
    badFileReq.title = none ∧
    (postEquipment emptyStore badFileReq).2.code = 500 ∧
    (postEquipment emptyStore badFileReq).2.code ≠ 400 ∧
    (postEquipment emptyStore badFileReq).1 = emptyStore := by
  decide

/-- C5 amended: for every create request that passes the photo upload
stage (or has no photo part), if any of the four required text fields is
empty or absent the request is rejected with 400 and the store is
untouched. -/
theorem missing_field_rejected_amended (st : Store) (req : CreateRequest)
    (hu : uploadAccepts req.file = true) (hp : requiredPresent req = false) :
    (postEquipment st req).2.code = 400 ∧ (postEquipment st req).1 = st := by
  obtain ⟨p, hup⟩ := uploadSingle_ok st.nextId req.file hu
  rw [postEquipment_ok_eq st req p hup, if_neg (by simp [hp])]
  exact ⟨rfl, rfl⟩

/-- C5 witness: creating without a title (and no photo) answers 400 and
persists nothing. -/
theorem missing_field_rejected_amended_witness :
    (postEquipment emptyStore noTitleReq).2.code = 400 ∧
    (postEquipment emptyStore noTitleReq).1 = emptyStore :=
  missing_field_rejected_amended emptyStore noTitleReq (by decide) (by decide)

/-- C6 counterexample: a create request whose photo part has the non-image
mime type "application/pdf" is answered with HTTP 500 (the fileFilter
error is a plain Error, not a MulterError, so the boundary-wide handler
returns the generic 500), not the 400 the claim states. -/
theorem nonimage_file_500 :
    mimeIsImage "application/pdf" = false ∧
    (postEquipment emptyStore pdfReq).2.code = 500 ∧
    (postEquipment emptyStore pdfReq).2.code ≠ 400 ∧
    (postEquipment emptyStore pdfReq).1 = emptyStore := by
  decide

/-- C6 amended: a create request whose photo part has a non-image mime
type is rejected with HTTP 500 (generic handler); one whose photo passes
the filter but exceeds 5 MB is rejected with HTTP 400 (LIMIT_FILE_SIZE);
in neither case is anything persisted. -/
theorem upload_error_codes_amended (st : Store) (req : CreateRequest)
    (fp : FilePart) (hf : req.file = some fp) :
    (fileFilterAccepts fp = false →
      (postEquipment st req).2.code = 500 ∧ (postEquipment st req).1 = st) ∧
    (fileFilterAccepts fp = true → fileSizeLimit < fp.size →
      (postEquipment st req).2.code = 400 ∧ (postEquipment st req).1 = st) := by
  constructor
  · intro hfa
    have hup : uploadSingle st.nextId req.file =
        UploadOutcome.err UploadError.invalidFileType := by
      rw [hf]
      simp only [uploadSingle]
      rw [if_neg (by simp [hfa])]
    rw [postEquipment_err_eq st req _ hup]
    exact ⟨rfl, rfl⟩
  · intro hfa hsz
    have hup : uploadSingle st.nextId req.file =
        UploadOutcome.err UploadError.limitFileSize := by
      rw [hf]
      simp only [uploadSingle]
      rw [if_pos hfa, if_neg (Nat.not_le.mpr hsz)]
    rw [postEquipment_err_eq st req _ hup]
    exact ⟨rfl, rfl⟩

/-- C6 witness: a 6 MB image upload is rejected with 400 and nothing is
persisted. -/
theorem upload_error_codes_amended_witness :
    (postEquipment emptyStore bigFileReq).2.code = 400 ∧
    (postEquipment emptyStore bigFileReq).1 = emptyStore :=
  (upload_error_codes_amended emptyStore bigFileReq bigFile rfl).2
    (by decide) (by decide)

/-- C7 counterexample: an otherwise fully valid create request whose
datetime is the arbitrary string "garbage" is rejected with 400 by the
schema's Date cast — creation does not succeed for every datetime
string. -/
theorem datetime_garbage_rejected :
    fieldsOk garbageReq = true ∧ requiredPresent garbageReq = true ∧
    (postEquipment emptyStore garbageReq).2.code = 400 ∧
    (postEquipment emptyStore garbageReq).2.code ≠ 201 ∧
    (postEquipment emptyStore garbageReq).1 = emptyStore := by
  decide

/-- C7 amended: the HTTP boundary itself applies no validation to
datetime and forwards it as-is, but the schema types it as Date: an
otherwise-valid create request succeeds exactly when its datetime is
absent, empty (falsy, server default) or castable to a Date, and is
rejected with 400 (nothing persisted) otherwise. -/
theorem datetime_cast_amended (st : Store) (req : CreateRequest)
    (hu : uploadAccepts req.file = true) (hp : requiredPresent req = true)
    (hf : fieldsOk req = true) :
    ((postEquipment st req).2.code = 201 ↔ datetimeOk req.datetime = true) ∧
    (datetimeOk req.datetime = false →
      (postEquipment st req).2.code = 400 ∧ (postEquipment st req).1 = st) := by
  obtain ⟨p, hup⟩ := uploadSingle_ok st.nextId req.file hu
  rw [postEquipment_ok_eq st req p hup, if_pos hp]
  unfold saveEquipment
  rw [schemaValidates_build st req p, hf, Bool.true_and]
  cases hd : datetimeOk req.datetime with
  | true => simp
  | false => simp

/-- C7 witness: the same request with an ISO datetime string succeeds. -/
theorem datetime_cast_amended_witness :
    (postEquipment emptyStore isoReq).2.code = 201 :=
  ((datetime_cast_amended emptyStore isoReq (by decide) (by decide)
    (by decide)).1).mpr (by decide)

/-- C8: in the update operation, status validation precedes the existence
check: an out-of-enum (or missing) status value yields 400 for every id,
present or not, and a 404 answer can only arise for an in-enum status
value together with an absent id. -/
theorem status_check_precedes_existence (st : Store) (i : Nat) (b : Option String) :
    (validStatus (b.getD "") = false → (putEquipment st i b).2.code = 400) ∧
    ((putEquipment st i b).2.code = 404 →
      validStatus (b.getD "") = true ∧ findById st i = none) := by
  constructor
  · intro hv
    simp [putEquipment, hv]
  · intro h404
    by_cases hc : (present b && validStatus (b.getD "")) = true
    · cases hf : findById st i with
      | none => exact ⟨(Bool.and_eq_true .. |>.mp hc).2, rfl⟩
      | some e =>
        exfalso
        simp [putEquipment, hc, hf] at h404
    · exfalso
      have hc2 : (present b && validStatus (b.getD "")) = false :=
        Bool.eq_false_iff.mpr hc
      simp [putEquipment, hc2] at h404

/-- C8 witness: an out-of-enum status on an absent id answers 400. -/
theorem status_check_precedes_existence_witness :
    (putEquipment emptyStore 7 (some "defeituoso")).2.code = 400 :=
  (status_check_precedes_existence emptyStore 7 (some "defeituoso")).1 (by decide)

/-- C9: every record echoed by a successful creation carries the four text
fields with leading and trailing whitespace removed (they equal the trim
of the submitted values), and that record is the one persisted. -/
theorem created_fields_trimmed (st : Store) (req : CreateRequest) (e : Equipment)
    (hb : (postEquipment st req).2.body = some e) :
    e.title = jsTrim (req.title.getD "") ∧
    e.description = jsTrim (req.description.getD "") ∧
    e.location = jsTrim (req.location.getD "") ∧
    e.laboratory = jsTrim (req.laboratory.getD "") ∧
    e ∈ (postEquipment st req).1.docs := by
  obtain ⟨p, hpe, hdocs⟩ := postEquipment_body_eq st req e hb
  subst hpe
  refine ⟨rfl, rfl, rfl, rfl, ?_⟩
  rw [hdocs]
  simp

/-- C9 witness: creating with title "  Projetor  " stores "Projetor". -/
theorem created_fields_trimmed_witness :
    eqPad.title = jsTrim (padReq.title.getD "") ∧
    eqPad.description = jsTrim (padReq.description.getD "") ∧
    eqPad.location = jsTrim (padReq.location.getD "") ∧
    eqPad.laboratory = jsTrim (padReq.laboratory.getD "") ∧
    eqPad ∈ (postEquipment emptyStore padReq).1.docs :=
  created_fields_trimmed emptyStore padReq eqPad (by decide)

/-- C10: a create request that passes the upload stage and the boundary
presence check but has some required text field trimming to the empty
string (whitespace-only) is rejected with 400 by schema validation and
nothing is persisted. -/
theorem whitespace_only_field_rejected (st : Store) (req : CreateRequest)
    (hu : uploadAccepts req.file = true) (hp : requiredPresent req = true)
    (hw : jsTrim (req.title.getD "") = "" ∨
          jsTrim (req.description.getD "") = "" ∨
          jsTrim (req.location.getD "") = "" ∨
          jsTrim (req.laboratory.getD "") = "") :
    (postEquipment st req).2.code = 400 ∧ (postEquipment st req).1 = st := by
  obtain ⟨p, hup⟩ := uploadSingle_ok st.nextId req.file hu
  rw [postEquipment_ok_eq st req p hup, if_pos hp]
  unfold saveEquipment
  have hv : schemaValidates (buildEquipment st req p) = false := by
    rw [schemaValidates_build st req p]
    rcases hw with h | h | h | h <;> simp [fieldsOk, textFieldOk, h]
  rw [if_neg (by simp [hv])]
  exact ⟨rfl, rfl⟩

/-- C10 witness: a whitespace-only title passes the presence check but the
request is rejected with 400 and nothing is persisted. -/
theorem whitespace_only_field_rejected_witness :
    (postEquipment emptyStore wsReq).2.code = 400 ∧
    (postEquipment emptyStore wsReq).1 = emptyStore :=
  whitespace_only_field_rejected emptyStore wsReq (by decide) (by decide)
    (Or.inl (by decide))
